import Mathlib

/-!
Verification of the p5Sprite helper layer (`src/p5sprite.js`).

The JavaScript source is shallowly embedded below.  JavaScript numbers are
modelled as real numbers (`ℝ`); the costume index, which the specification
only constrains at integer values, is modelled as `ℤ`.  Loaded images are
kept abstract: a sprite is parametrised by the type of its images, and an
image's natural dimensions are modelled by the `Image` structure.  Stateful
methods become functions from the old record to the new one.
-/

namespace P5Sprite

/-- A JavaScript value as far as this library inspects one: a number, a
string, or any other object (`typeof` is the only discrimination used). -/
inductive JsVal where
  | num (x : ℝ)
  | str (s : String)
  | obj

/-- The sprite's rotation style, `'free' | 'flipped'` in the source. -/
inductive RotationStyle where
  | free
  | flipped
deriving DecidableEq

/-- State of a `Sprite` instance (constructor fields, `p5sprite.js` lines
54-79), parametrised by the type `Img` of loaded costume images. -/
structure Sprite (Img : Type) where
  x : ℝ
  y : ℝ
  direction : ℝ
  rotationStyle : RotationStyle
  costumeId : ℤ
  hidden : Bool
  layer : ℝ
  images : List Img
  hitRadius : ℝ
  scale : ℝ
  w : Option ℝ
  h : Option ℝ

variable {Img : Type}

/-- The `Sprite` constructor: all fields take their documented defaults and
the costume list is the list of loaded images. -/
def Sprite.new (imgs : List Img) : Sprite Img :=
  { x := 0, y := 0, direction := 90, rotationStyle := .free, costumeId := 0,
    hidden := false, layer := 0, images := imgs, hitRadius := 40, scale := 1,
    w := none, h := none }

/-- `moveTo(x, y)`: teleport the sprite. -/
def Sprite.moveTo (s : Sprite Img) (x y : ℝ) : Sprite Img :=
  { s with x := x, y := y }

/-- p5's `radians(deg)`, i.e. `deg * (Math.PI / 180)`. -/
noncomputable def radians (deg : ℝ) : ℝ := deg * (Real.pi / 180)

/-- `stepForward(pixels)`: advance along the current heading
(`x += cos(r) * pixels; y += sin(r) * pixels` with `r = radians(direction)`). -/
noncomputable def Sprite.stepForward (s : Sprite Img) (pixels : ℝ) : Sprite Img :=
  { s with x := s.x + Real.cos (radians s.direction) * pixels,
           y := s.y + Real.sin (radians s.direction) * pixels }

/-- `setScale(s)`. -/
def Sprite.setScale (s : Sprite Img) (k : ℝ) : Sprite Img :=
  { s with scale := k }

/-- `setSize(w, h)`. -/
def Sprite.setSize (s : Sprite Img) (w h : ℝ) : Sprite Img :=
  { s with w := some w, h := some h }

/-- p5's `dist(x1, y1, x2, y2) = sqrt((x2-x1)^2 + (y2-y1)^2)`. -/
noncomputable def p5dist (x1 y1 x2 y2 : ℝ) : ℝ :=
  Real.sqrt ((x2 - x1) ^ 2 + (y2 - y1) ^ 2)

/-- `touched(other)`:
`dist(this.x, this.y, other.x, other.y) < this.hitRadius + other.hitRadius`. -/
def Sprite.touched (a b : Sprite Img) : Prop :=
  p5dist a.x a.y b.x b.y < a.hitRadius + b.hitRadius

/-- The distance computed by p5's `dist` is the Euclidean metric on the
plane, here realised as the metric of `ℂ` via `Complex.dist_eq_re_im`. -/
theorem p5dist_eq_dist (x1 y1 x2 y2 : ℝ) :
    p5dist x1 y1 x2 y2 = dist (⟨x1, y1⟩ : ℂ) (⟨x2, y2⟩ : ℂ) := by
  rw [Complex.dist_eq_re_im, p5dist]
  congr 1
  ring_nf

/-- C1: for every pair of sprites `a` and `b`, `a.touched(b)` holds iff the
Euclidean distance between their centres (the plane metric of `ℂ`) is strictly
less than the sum of the two collision radii; in particular it is false when
the distance equals the sum (the boundary is open). -/
theorem touched_iff_euclidean_dist_lt (Img : Type) (a b : Sprite Img) :
    (Sprite.touched a b ↔
      dist (⟨a.x, a.y⟩ : ℂ) (⟨b.x, b.y⟩ : ℂ) < a.hitRadius + b.hitRadius)
    ∧ (dist (⟨a.x, a.y⟩ : ℂ) (⟨b.x, b.y⟩ : ℂ) = a.hitRadius + b.hitRadius →
        ¬ Sprite.touched a b) := by
  constructor
  · rw [Sprite.touched, p5dist_eq_dist]
  · intro hEq hT
    rw [Sprite.touched, p5dist_eq_dist, hEq] at hT
    exact lt_irrefl _ hT

/-- Witness for C1 at concrete sprites: centres `(0,0)` and `(80,0)` with the
default radii `40 + 40 = 80`; the distance is exactly the sum, and `touched`
is false there. -/
theorem touched_iff_euclidean_dist_lt_witness :
    ¬ Sprite.touched ((Sprite.new ([] : List Unit)).moveTo 0 0)
        ((Sprite.new ([] : List Unit)).moveTo 80 0) := by
  apply (touched_iff_euclidean_dist_lt Unit
      ((Sprite.new ([] : List Unit)).moveTo 0 0)
      ((Sprite.new ([] : List Unit)).moveTo 80 0)).2
  show dist (⟨(0 : ℝ), (0 : ℝ)⟩ : ℂ) (⟨(80 : ℝ), (0 : ℝ)⟩ : ℂ) = 40 + 40
  rw [Complex.dist_eq_re_im]
  rw [show ((0 : ℝ) - 80) ^ 2 + ((0 : ℝ) - 0) ^ 2 = 80 ^ 2 by norm_num]
  rw [Real.sqrt_sq (by norm_num)]
  norm_num

/-- C4: `stepForward(d)` adds exactly `(d·cos θ, d·sin θ)` to the position,
with `θ` the stored heading converted from degrees to radians, independent of
the sprite's prior position (stated as a difference). -/
theorem stepForward_displacement (Img : Type) (s : Sprite Img) (d : ℝ) :
    (s.stepForward d).x - s.x = d * Real.cos (radians s.direction)
    ∧ (s.stepForward d).y - s.y = d * Real.sin (radians s.direction) := by
  refine ⟨?_, ?_⟩ <;> simp only [Sprite.stepForward] <;> ring

/-- One iteration of the frame driver's user-callback slot: per frame the
driver runs the registered callback exactly once (`if (gameLoop) gameLoop()`),
so `n` frames apply the callback's state transformation `n` times. -/
def runFrames (cb : α → α) : ℕ → α → α
  | 0, s => s
  | n + 1, s => runFrames cb n (cb s)

theorem runFrames_direction_add_one (Img : Type) (n : ℕ) (s : Sprite Img) :
    (runFrames (fun t : Sprite Img => { t with direction := t.direction + 1 })
      n s).direction = s.direction + n := by
  induction n generalizing s with
  | zero => simp [runFrames]
  | succ m ih =>
      rw [runFrames, ih]
      push_cast
      ring

/-- C9: no operation normalizes the stored heading.  `stepForward` leaves the
heading unchanged, and a frame callback adding 1 degree per tick leaves, after
360 ticks, the raw heading at `initial + 360` — distinct from the initial
value, although equal to it modulo 360 (same fractional part of `θ/360`). -/
theorem heading_never_normalized (Img : Type) (s : Sprite Img) :
    (∀ d : ℝ, (s.stepForward d).direction = s.direction)
    ∧ (runFrames (fun t : Sprite Img => { t with direction := t.direction + 1 })
        360 s).direction = s.direction + 360
    ∧ s.direction + 360 ≠ s.direction
    ∧ Int.fract ((s.direction + 360) / 360) = Int.fract (s.direction / 360) := by
  refine ⟨fun d => rfl, ?_, by intro h; linarith [congrArg id h], ?_⟩
  · rw [runFrames_direction_add_one]
    norm_num
  · rw [show (s.direction + 360) / 360 = s.direction / 360 + ((1 : ℤ) : ℝ) by
      push_cast; ring]
    exact Int.fract_add_int _ _

/-- Witness for C9 at a concrete sprite: a fresh sprite (heading 90) run for
360 ticks of a heading-incrementing callback ends with raw heading
`90 + 360`. -/
theorem heading_never_normalized_witness :
    (runFrames (fun t : Sprite Unit => { t with direction := t.direction + 1 })
      360 (Sprite.new ([] : List Unit))).direction
      = (Sprite.new ([] : List Unit)).direction + 360 :=
  (heading_never_normalized Unit (Sprite.new ([] : List Unit))).2.1

/-- Natural dimensions of a loaded image (`img.width`, `img.height`). -/
structure Image where
  width : ℝ
  height : ℝ

/-- The rendered size computed in `_draw`:
`dw = this.w ?? img.width * this.scale; dh = this.h ?? img.height * this.scale`. -/
noncomputable def Sprite.drawSize (s : Sprite Img) (img : Image) : ℝ × ℝ :=
  (s.w.getD (img.width * s.scale), s.h.getD (img.height * s.scale))

/-- C5: at draw time the rendered size is the explicit `setSize` override
whenever one is set — regardless of the scale factor — and otherwise the
image's natural dimensions times the scale; in particular with scale `0.5`
and no override the sprite renders at half the natural size, and a subsequent
`setSize(100, 50)` renders exactly `100×50`. -/
theorem drawSize_override_else_scale (Img : Type) (s : Sprite Img)
    (img : Image) (a b : ℝ) :
    ((s.setSize a b).drawSize img = (a, b))
    ∧ (s.w = none → s.h = none →
        s.drawSize img = (img.width * s.scale, img.height * s.scale))
    ∧ (s.w = none → s.h = none →
        (s.setScale 0.5).drawSize img = (img.width * 0.5, img.height * 0.5))
    ∧ (((s.setScale 0.5).setSize 100 50).drawSize img = (100, 50)) := by
  refine ⟨rfl, fun h1 h2 => ?_, fun h1 h2 => ?_, rfl⟩
  · rw [Sprite.drawSize, h1, h2]
    rfl
  · rw [Sprite.drawSize]
    show ((s.w.getD _), (s.h.getD _)) = _
    rw [h1, h2]
    rfl

/-- Witness for C5: a freshly constructed sprite (no size override) with a
`200×100` image at scale `0.5` renders at `100×50`. -/
theorem drawSize_override_else_scale_witness :
    ((Sprite.new ([] : List Unit)).setScale 0.5).drawSize ⟨200, 100⟩
      = (200 * 0.5, 100 * 0.5) :=
  (drawSize_override_else_scale Unit (Sprite.new ([] : List Unit))
    ⟨200, 100⟩ 0 0).2.2.1 rfl rfl

/-- JavaScript array access `a[i]` at an integer index: the element when
`0 ≤ i < a.length`, `undefined` (here `none`) otherwise. -/
def jsIndex (l : List α) (i : ℤ) : Option α :=
  if 0 ≤ i then l[i.toNat]? else none

/-- The costume selection of `_draw`:
`this.images[this.costumeId % this.images.length]`.  JavaScript `%` is the
truncated remainder (`Int.tmod`); on an empty list `i % 0` is `NaN` and the
access yields `undefined`. -/
def selectCostume (i : ℤ) (l : List α) : Option α :=
  if l.length = 0 then none
  else jsIndex l (Int.tmod i (l.length : ℤ))

/-- C2 counterexample: at costume index `-1` with two costumes the code
selects nothing (`-1 % 2 = -1` in JavaScript, and `images[-1]` is
`undefined`), whereas index modulo count is `1` and would select the second
costume.  So the claim is false for negative indices. -/
theorem selectCostume_neg_index_counterexample :
    ¬ (selectCostume (-1 : ℤ) [(0 : ℕ), 1]
        = [(0 : ℕ), 1][((-1 : ℤ) % (([(0 : ℕ), 1] : List ℕ).length : ℤ)).toNat]?) := by
  decide

/-- C2 amended: for a sprite with at least one loaded costume and a
*nonnegative* integer costume index, rendering selects the costume at
position (index modulo count), so out-of-range nonnegative indices wrap, and
index `N` selects the same costume as index `0`; a negative index such as
`-1` does not wrap (no costume is selected, see the counterexample). -/
theorem selectCostume_wraps_nonneg (Img : Type) (i : ℤ) (l : List Img)
    (hl : l ≠ []) (hi : 0 ≤ i) :
    selectCostume i l = l[(i % (l.length : ℤ)).toNat]?
    ∧ selectCostume (l.length : ℤ) l = selectCostume 0 l := by
  have hlen : ¬ (l.length = 0) := fun h => hl (List.length_eq_zero.mp h)
  have hlenZ : (0 : ℤ) < (l.length : ℤ) := by
    exact_mod_cast Nat.pos_of_ne_zero hlen
  constructor
  · rw [selectCostume, if_neg hlen,
      Int.tmod_eq_emod hi (le_of_lt hlenZ), jsIndex,
      if_pos (Int.emod_nonneg i (ne_of_gt hlenZ))]
  · rw [selectCostume, if_neg hlen, selectCostume, if_neg hlen,
      Int.tmod_self, Int.zero_tmod]

/-- Witness for C2: three costumes, index 5 wraps to position `5 mod 3 = 2`,
and index 3 selects the same costume as index 0. -/
theorem selectCostume_wraps_nonneg_witness :
    selectCostume (5 : ℤ) [(10 : ℕ), 20, 30]
      = [(10 : ℕ), 20, 30][((5 : ℤ) % (([(10 : ℕ), 20, 30] : List ℕ).length : ℤ)).toNat]?
    ∧ selectCostume (([(10 : ℕ), 20, 30] : List ℕ).length : ℤ) [(10 : ℕ), 20, 30]
      = selectCostume 0 [(10 : ℕ), 20, 30] :=
  selectCostume_wraps_nonneg ℕ 5 [10, 20, 30] (by decide) (by decide)

/-- JavaScript truncation toward zero, as performed by `%` on numbers. -/
noncomputable def trunc (x : ℝ) : ℤ :=
  if 0 ≤ x then ⌊x⌋ else ⌈x⌉

/-- JavaScript's `%` on (finite) numbers with positive modulus:
`x % m = x - m * trunc(x / m)` (remainder carries the dividend's sign). -/
noncomputable def jsRem (x m : ℝ) : ℝ := x - m * trunc (x / m)

/-- The heading normalization of `_draw` in flip mode:
`d = ((this.direction % 360) + 360) % 360`. -/
noncomputable def normDeg (θ : ℝ) : ℝ := jsRem (jsRem θ 360 + 360) 360

theorem trunc_of_nonneg {x : ℝ} (h : 0 ≤ x) : trunc x = ⌊x⌋ := if_pos h

theorem trunc_of_neg {x : ℝ} (h : x < 0) : trunc x = ⌈x⌉ := if_neg (not_le.mpr h)

theorem jsRem_of_nonneg {x : ℝ} (h : 0 ≤ x) :
    jsRem x 360 = 360 * Int.fract (x / 360) := by
  rw [jsRem, trunc_of_nonneg (by positivity), ← Int.self_sub_floor]
  ring

/-- Double application of JavaScript `%` as in `_draw` computes the
mathematical residue: `((θ % 360) + 360) % 360 = 360 · fract(θ/360)`. -/
theorem normDeg_eq_fract (θ : ℝ) : normDeg θ = 360 * Int.fract (θ / 360) := by
  have hf0 : 0 ≤ Int.fract (θ / 360) := Int.fract_nonneg _
  have hf1 : Int.fract (θ / 360) < 1 := Int.fract_lt_one _
  by_cases hθ : 0 ≤ θ
  · rw [normDeg, jsRem_of_nonneg hθ, jsRem_of_nonneg (by linarith)]
    rw [show (360 * Int.fract (θ / 360) + 360) / 360
        = Int.fract (θ / 360) + ((1 : ℤ) : ℝ) by push_cast; ring_nf]
    rw [Int.fract_add_int, Int.fract_eq_self.mpr ⟨hf0, hf1⟩]
  · push_neg at hθ
    have hq : θ / 360 < 0 := div_neg_of_neg_of_pos hθ (by norm_num)
    have hinner : jsRem θ 360 = θ - 360 * ((⌈θ / 360⌉ : ℤ) : ℝ) := by
      rw [jsRem, trunc_of_neg hq]
    by_cases hz : Int.fract (θ / 360) = 0
    · obtain ⟨z, hzq⟩ : ∃ z : ℤ, θ / 360 - 0 = (z : ℝ) :=
        ((Int.fract_eq_iff).mp hz).2.2
      rw [sub_zero] at hzq
      have hθz : θ = 360 * (z : ℝ) := by
        rw [div_eq_iff (by norm_num : (360 : ℝ) ≠ 0)] at hzq
        linarith
      have h0 : jsRem θ 360 = 0 := by
        rw [hinner, hzq, Int.ceil_intCast, hθz]
        ring
      rw [normDeg, h0, hz, zero_add,
        jsRem_of_nonneg (by norm_num : (0 : ℝ) ≤ 360)]
      rw [show (360 : ℝ) / 360 = ((1 : ℤ) : ℝ) by norm_num, Int.fract_intCast]
    · have hfl : (⌊θ / 360⌋ : ℝ) < θ / 360 :=
        lt_of_le_of_ne (Int.floor_le _) fun hEq => hz (by
          rw [← hEq, Int.fract_intCast])
      have hceil : ⌈θ / 360⌉ = ⌊θ / 360⌋ + 1 := by
        refine le_antisymm (Int.ceil_le_floor_add_one _) ?_
        have h1 : (⌊θ / 360⌋ : ℝ) < (⌈θ / 360⌉ : ℝ) :=
          lt_of_lt_of_le hfl (Int.le_ceil _)
        exact Int.add_one_le_iff.mpr (by exact_mod_cast h1)
      have hfract : 360 * Int.fract (θ / 360) = θ - 360 * ((⌊θ / 360⌋ : ℤ) : ℝ) := by
        rw [Int.fract]
        ring
      have hr : jsRem θ 360 + 360 = 360 * Int.fract (θ / 360) := by
        rw [hinner, hceil, hfract]
        push_cast
        ring
      rw [normDeg, hr,
        jsRem_of_nonneg (mul_nonneg (by norm_num : (0 : ℝ) ≤ 360) hf0)]
      rw [show 360 * Int.fract (θ / 360) / 360 = Int.fract (θ / 360) by ring]
      rw [Int.fract_eq_self.mpr ⟨hf0, hf1⟩]

/-- The normalized heading written with an explicit floor:
`((θ % 360) + 360) % 360 = θ - 360·⌊θ/360⌋`, the representative of `θ`
in `[0, 360)`. -/
theorem normDeg_eq_floor_residue (θ : ℝ) :
    normDeg θ = θ - 360 * (⌊θ / 360⌋ : ℝ) := by
  rw [normDeg_eq_fract, Int.fract]
  ring

theorem normDeg_bounds (θ : ℝ) : 0 ≤ normDeg θ ∧ normDeg θ < 360 := by
  rw [normDeg_eq_fract]
  have h0 := Int.fract_nonneg (θ / 360)
  have h1 := Int.fract_lt_one (θ / 360)
  constructor <;> linarith

/-- The coordinate transform `_draw` applies before painting the costume:
free style rotates the context by `radians(direction)`; flipped style mirrors
horizontally (`scale(-1, 1)`) when the normalized heading is strictly between
90 and 270, and does nothing otherwise. -/
inductive DrawTransform where
  | rotateRad (r : ℝ)
  | flipX
  | noTransform

open Classical in
/-- The rotate-or-flip branch of `_draw` (source lines 131-136). -/
noncomputable def Sprite.drawTransform (s : Sprite Img) : DrawTransform :=
  match s.rotationStyle with
  | .free => .rotateRad (radians s.direction)
  | .flipped =>
      if 90 < normDeg s.direction ∧ normDeg s.direction < 270 then .flipX
      else .noTransform

/-- C3: in flip-only mode, rendering mirrors horizontally exactly when the
heading normalized into `[0, 360)` (i.e. `θ - 360·⌊θ/360⌋`) lies strictly
between 90 and 270; in free mode the context is instead rotated by the
heading in radians.  The normalized heading indeed lies in `[0, 360)`. -/
theorem flipped_mirrors_iff (Img : Type) (s : Sprite Img) :
    (s.rotationStyle = .flipped →
      (s.drawTransform = .flipX ↔
        (90 < s.direction - 360 * (⌊s.direction / 360⌋ : ℝ)
          ∧ s.direction - 360 * (⌊s.direction / 360⌋ : ℝ) < 270)))
    ∧ (s.rotationStyle = .free →
        s.drawTransform = .rotateRad (radians s.direction))
    ∧ (0 ≤ s.direction - 360 * (⌊s.direction / 360⌋ : ℝ)
        ∧ s.direction - 360 * (⌊s.direction / 360⌋ : ℝ) < 360) := by
  have hnorm := normDeg_eq_floor_residue s.direction
  refine ⟨fun hstyle => ?_, fun hstyle => ?_, ?_⟩
  · rw [← hnorm]
    simp only [Sprite.drawTransform, hstyle]
    split_ifs with hc
    · simp [hc]
    · simp [hc]
  · simp only [Sprite.drawTransform, hstyle]
  · rw [← hnorm]
    exact normDeg_bounds s.direction

/-- Test fixture: a default sprite in flip-only rotation mode at heading `θ`. -/
def flipSprite (θ : ℝ) : Sprite Unit :=
  { Sprite.new ([] : List Unit) with rotationStyle := .flipped, direction := θ }

/-- Witness for C3: with flip-only rotation, heading 91 mirrors while
headings 89 and 271 do not. -/
theorem flipped_mirrors_iff_witness :
    (flipSprite 91).drawTransform = .flipX
    ∧ (flipSprite 89).drawTransform ≠ .flipX
    ∧ (flipSprite 271).drawTransform ≠ .flipX := by
  have h91 := (flipped_mirrors_iff Unit (flipSprite 91)).1 rfl
  have h89 := (flipped_mirrors_iff Unit (flipSprite 89)).1 rfl
  have h271 := (flipped_mirrors_iff Unit (flipSprite 271)).1 rfl
  have f91 : (⌊(91 : ℝ) / 360⌋ : ℤ) = 0 := by
    rw [Int.floor_eq_zero_iff]
    constructor <;> norm_num
  have f89 : (⌊(89 : ℝ) / 360⌋ : ℤ) = 0 := by
    rw [Int.floor_eq_zero_iff]
    constructor <;> norm_num
  have f271 : (⌊(271 : ℝ) / 360⌋ : ℤ) = 0 := by
    rw [Int.floor_eq_zero_iff]
    constructor <;> norm_num
  have d91 : (flipSprite 91).direction = 91 := rfl
  have d89 : (flipSprite 89).direction = 89 := rfl
  have d271 : (flipSprite 271).direction = 271 := rfl
  rw [d91, f91] at h91
  rw [d89, f89] at h89
  rw [d271, f271] at h271
  refine ⟨h91.mpr (by norm_num), fun hEq => ?_, fun hEq => ?_⟩
  · have := h89.mp hEq
    norm_num at this
  · have := h271.mp hEq
    norm_num at this

/-- The extension test of `setBackground`:
`/\.(png|jpe?g|gif|bmp|webp)$/i.test(val)` — the string, case-folded, ends in
a dot followed by one of the recognized image extensions. -/
def isImagePath (s : String) : Bool :=
  let t := s.data.map Char.toLower
  ".png".data.isSuffixOf t || ".jpg".data.isSuffixOf t ||
    ".jpeg".data.isSuffixOf t || ".gif".data.isSuffixOf t ||
    ".bmp".data.isSuffixOf t || ".webp".data.isSuffixOf t

/-- The module's background state: `backdropImage` (the source value of the
loaded image) and `bgColor`. -/
structure Background where
  backdropImage : Option String
  bgColor : Option JsVal

/-- `setBackground(val)`: a string matching the image-extension pattern loads
a backdrop image and clears the colour; any other value becomes the solid
colour and clears the backdrop image. -/
def setBackground (v : JsVal) (_st : Background) : Background :=
  match v with
  | .str s =>
      if isImagePath s then { backdropImage := some s, bgColor := none }
      else { backdropImage := none, bgColor := some (.str s) }
  | _ => { backdropImage := none, bgColor := some v }

/-- C6: after every `setBackground` call at most one background state is
active; a string with a recognized image extension (case-insensitive) sets
the backdrop and clears the colour, and every other value sets the colour and
clears the backdrop. -/
theorem setBackground_exclusive (v : JsVal) (st : Background) :
    ((setBackground v st).backdropImage = none
      ∨ (setBackground v st).bgColor = none)
    ∧ (∀ s : String, v = .str s → isImagePath s = true →
        setBackground v st = { backdropImage := some s, bgColor := none })
    ∧ ((∀ s : String, v = .str s → isImagePath s = false) →
        setBackground v st = { backdropImage := none, bgColor := some v }) := by
  refine ⟨?_, fun s hv himg => ?_, fun hno => ?_⟩
  · cases v with
    | str s =>
        rw [setBackground]
        split_ifs <;> simp
    | num x => exact Or.inl rfl
    | obj => exact Or.inl rfl
  · subst hv
    rw [setBackground, if_pos himg]
  · cases v with
    | str s =>
        rw [setBackground, if_neg (by rw [hno s rfl]; exact fun h => Bool.noConfusion h)]
    | num x => rfl
    | obj => rfl

/-- Witness for C6: `"bg.PNG"` (uppercase extension) replaces a prior solid
colour with a backdrop image, and a non-string value replaces a prior
backdrop image with a solid colour. -/
theorem setBackground_exclusive_witness :
    setBackground (.str "bg.PNG") { backdropImage := none, bgColor := some .obj }
      = { backdropImage := some "bg.PNG", bgColor := none }
    ∧ setBackground .obj { backdropImage := some "bg.PNG", bgColor := none }
      = { backdropImage := none, bgColor := some .obj } :=
  ⟨(setBackground_exclusive (.str "bg.PNG") _).2.1 "bg.PNG" rfl (by decide),
   (setBackground_exclusive .obj _).2.2 (fun s h => JsVal.noConfusion h)⟩

/-- Screen-space bounding rectangle of the canvas
(`canvas.getBoundingClientRect()`). -/
structure CanvasRect where
  left : ℚ
  top : ℚ

/-- The logical placement of an `InputBox`: centre `(cx, cy)` and size
`(w, h)` in canvas coordinates (fields `_cx`, `_cy`, `_w`, `_h`). -/
structure InputBoxGeom where
  cx : ℚ
  cy : ℚ
  w : ℚ
  h : ℚ

/-- The style values `_recalc` writes to the DOM element. -/
structure ElemStyle where
  left : ℚ
  top : ℚ
  width : ℚ
  height : ℚ
deriving DecidableEq

/-- The assignment of `_recalc` when the canvas exists:
`left = rect.left + cx - w/2`, `top = rect.top + cy - h/2`, size direct. -/
def recalcStyle (rect : CanvasRect) (ib : InputBoxGeom) : ElemStyle :=
  { left := rect.left + ib.cx - ib.w / 2,
    top := rect.top + ib.cy - ib.h / 2,
    width := ib.w,
    height := ib.h }

/-- `_recalc(ib)`: a no-op while the sketch or canvas is missing, otherwise
the pure alignment above. -/
def recalc (canvas : Option CanvasRect) (ib : InputBoxGeom)
    (old : Option ElemStyle) : Option ElemStyle :=
  match canvas with
  | none => old
  | some rect => some (recalcStyle rect ib)

/-- C7: whenever alignment is recomputed and the render surface exists, the
element's screen placement is `left = rect.left + cx − w/2`,
`top = rect.top + cy − h/2` with width and height set directly; for a box at
`(600,720)` sized `400×32` over a surface at the screen origin this gives
`left=400, top=704, width=400, height=32`. -/
theorem recalc_alignment (rect : CanvasRect) (ib : InputBoxGeom)
    (old : Option ElemStyle) :
    recalc (some rect) ib old
      = some { left := rect.left + ib.cx - ib.w / 2,
               top := rect.top + ib.cy - ib.h / 2,
               width := ib.w, height := ib.h }
    ∧ recalcStyle ⟨0, 0⟩ ⟨600, 720, 400, 32⟩ = ⟨400, 704, 400, 32⟩ := by
  refine ⟨rfl, ?_⟩
  rw [recalcStyle]
  norm_num [ElemStyle.mk.injEq]

/-- The public API surface of the library, as attached to `window`.  The
`forever` call carries the user callback as a transformation of the
callback-visible state `α`. -/
inductive ApiCall (α : Type) where
  | createSpriteCall (args : List JsVal)
  | createTextBoxCall
  | createInputBoxCall
  | createSoundCall
  | setBackgroundCall (v : JsVal)
  | drawTextCall
  | foreverCall (fn : α → α)
  | stopCall

/-- The loop-control state: p5's internal `looping` flag (cleared by
`noLoop()`, which is all `stop()` does) and the `gameLoop` callback slot. -/
structure LoopCtl (α : Type) where
  looping : Bool
  gameLoop : Option (α → α)

/-- Effect of each public API call on the loop control: `forever` replaces
the callback slot, `stop` calls `noLoop()` (clearing `looping`), and no
public call ever calls `loop()` or `redraw()`, so nothing sets `looping`. -/
def applyApi (e : LoopCtl α) (c : ApiCall α) : LoopCtl α :=
  match c with
  | .foreverCall fn => { e with gameLoop := some fn }
  | .stopCall => { e with looping := false }
  | _ => e

/-- An event: a public API call, or one animation-frame boundary. -/
inductive Event (α : Type) where
  | api (c : ApiCall α)
  | frame

/-- State transition per event.  A frame tick leaves the loop control
unchanged (the driver only reads it). -/
def stepEvent (e : LoopCtl α) (ev : Event α) : LoopCtl α :=
  match ev with
  | .api c => applyApi e c
  | .frame => e

/-- Whether an animation frame runs the registered callback: p5 invokes
`draw` only while `looping`, and `draw` runs `gameLoop` when present. -/
def frameCallbackRuns (e : LoopCtl α) : Bool :=
  e.looping && e.gameLoop.isSome

/-- Whether the user callback runs at any point of an event sequence. -/
def anyCallbackRuns (e : LoopCtl α) : List (Event α) → Bool
  | [] => false
  | ev :: rest =>
      (match ev with
       | .frame => frameCallbackRuns e
       | .api _ => false) || anyCallbackRuns (stepEvent e ev) rest

theorem applyApi_looping_false (e : LoopCtl α) (c : ApiCall α)
    (h : e.looping = false) : (applyApi e c).looping = false := by
  cases c <;> simp [applyApi, h]

theorem anyCallbackRuns_of_not_looping (e : LoopCtl α)
    (evs : List (Event α)) (h : e.looping = false) :
    anyCallbackRuns e evs = false := by
  induction evs generalizing e with
  | nil => rfl
  | cons ev rest ih =>
      cases ev with
      | api c =>
          rw [anyCallbackRuns]
          rw [ih (stepEvent e (.api c)) (applyApi_looping_false e c h)]
          rfl
      | frame =>
          rw [anyCallbackRuns, frameCallbackRuns, h]
          rw [ih (stepEvent e .frame) h]
          rfl

/-- C8: once `stop()` has executed, no later frame ever runs the registered
frame callback, regardless of any subsequent sequence of public API calls
(including further `forever` registrations): the running→stopped transition
is permanent. -/
theorem stop_is_permanent (α : Type) (e : LoopCtl α)
    (pre post : List (Event α)) :
    anyCallbackRuns
      (List.foldl stepEvent e (pre ++ [Event.api ApiCall.stopCall])) post
      = false := by
  apply anyCallbackRuns_of_not_looping
  rw [List.foldl_append]
  rfl

/-- Whether `createSprite`'s first two arguments are both numbers
(`typeof arguments[0] === 'number' && typeof arguments[1] === 'number'`). -/
def startsWithTwoNumbers : List JsVal → Bool
  | .num _ :: .num _ :: _ => true
  | _ => false

/-- `createSprite([x, y,] ...paths)`: when the first two arguments are both
numbers they give the position and the rest are the costume sources;
otherwise the position defaults to `(0, 0)` and every argument is a costume
source.  The new sprite is `moveTo`-ed and returned. -/
def createSprite (args : List JsVal) : Sprite JsVal :=
  match args with
  | .num x :: .num y :: rest => (Sprite.new rest).moveTo x y
  | _ => (Sprite.new args).moveTo 0 0

theorem createSprite_shape (args : List JsVal) :
    ∃ imgs x y, createSprite args = (Sprite.new imgs).moveTo x y := by
  match args with
  | JsVal.num x :: JsVal.num y :: rest => exact ⟨rest, x, y, rfl⟩
  | [] => exact ⟨[], 0, 0, rfl⟩
  | [JsVal.num x] => exact ⟨_, 0, 0, rfl⟩
  | JsVal.num x :: JsVal.str s :: rest => exact ⟨_, 0, 0, rfl⟩
  | JsVal.num x :: JsVal.obj :: rest => exact ⟨_, 0, 0, rfl⟩
  | JsVal.str s :: rest => exact ⟨_, 0, 0, rfl⟩
  | JsVal.obj :: rest => exact ⟨_, 0, 0, rfl⟩

/-- C10: every sprite returned by `createSprite` starts with heading 90,
free rotation, costume index 0, visible, layer 0, collision radius 40,
scale 1 and no explicit size; its position comes from the first two
arguments exactly when both are numbers and is `(0,0)` otherwise. -/
theorem createSprite_defaults (args : List JsVal) :
    (∀ x y rest, args = JsVal.num x :: JsVal.num y :: rest →
        (createSprite args).x = x ∧ (createSprite args).y = y)
    ∧ (startsWithTwoNumbers args = false →
        (createSprite args).x = 0 ∧ (createSprite args).y = 0)
    ∧ (createSprite args).direction = 90
    ∧ (createSprite args).rotationStyle = .free
    ∧ (createSprite args).costumeId = 0
    ∧ (createSprite args).hidden = false
    ∧ (createSprite args).layer = 0
    ∧ (createSprite args).hitRadius = 40
    ∧ (createSprite args).scale = 1
    ∧ (createSprite args).w = none
    ∧ (createSprite args).h = none := by
  obtain ⟨imgs, x0, y0, hEq⟩ := createSprite_shape args
  refine ⟨fun x y rest hv => ?_, fun hF => ?_, ?_, ?_, ?_, ?_, ?_, ?_, ?_, ?_, ?_⟩
  · subst hv
    exact ⟨rfl, rfl⟩
  · match args, hF with
    | [], _ => exact ⟨rfl, rfl⟩
    | [JsVal.num x], _ => exact ⟨rfl, rfl⟩
    | JsVal.num x :: JsVal.str s :: rest, _ => exact ⟨rfl, rfl⟩
    | JsVal.num x :: JsVal.obj :: rest, _ => exact ⟨rfl, rfl⟩
    | JsVal.str s :: rest, _ => exact ⟨rfl, rfl⟩
    | JsVal.obj :: rest, _ => exact ⟨rfl, rfl⟩
  all_goals rw [hEq]
  all_goals rfl

/-- Witness for C10: `createSprite(600, 450, "a.png")` starts at `(600,450)`
while `createSprite("a.png")` starts at `(0,0)`. -/
theorem createSprite_defaults_witness :
    ((createSprite [JsVal.num 600, JsVal.num 450, JsVal.str "a.png"]).x = 600
      ∧ (createSprite [JsVal.num 600, JsVal.num 450, JsVal.str "a.png"]).y = 450)
    ∧ ((createSprite [JsVal.str "a.png"]).x = 0
      ∧ (createSprite [JsVal.str "a.png"]).y = 0) :=
  ⟨(createSprite_defaults [JsVal.num 600, JsVal.num 450, JsVal.str "a.png"]).1
      600 450 [JsVal.str "a.png"] rfl,
   (createSprite_defaults [JsVal.str "a.png"]).2.1 rfl⟩

end P5Sprite
